import Mathlib

/-!
Shallow embedding of the tennis match Monte Carlo simulator
(`simulators/tennis/sim.py`) and of the expected-outcome calculator of the
`tennis_sim` package (`setups/tennis_sim/expected.py`, `rally.py`).

Python floats are modelled as rationals (`ℚ`); the exact real arithmetic of
the formulas is what the specification talks about.  Random draws
(`random.random()`, `random.gauss`, …) are modelled as explicit parameters:
either individual draws or a stream `rnd : ℕ → ℚ` indexed by the number of
uniform draws consumed so far.  Unbounded `while` loops are modelled with an
explicit fuel parameter returning `Option`; a returned `some` corresponds to
a run of the Python loop that terminated.
-/

/-- Embedding of `clip(value, min_value, max_value)` from `sim.py`:
`max(min_value, min(value, max_value))`, polymorphic over the ordered type
(Python applies it to both floats and ints). -/
def clip {α : Type} [LinearOrder α] (value minValue maxValue : α) : α :=
  max minValue (min value maxValue)

/-- The statistics dictionary of `sim.py`.  The seven keys that the
simulator reads and writes are named fields; every other key of the Python
dict (the remaining base statistics, copied through unchanged by
`dict.copy()`) is modelled by the function field `other`. -/
structure Stats where
  AcePercentage : ℚ
  FirstServeWonPercentage : ℚ
  SecondServeWonPercentage : ℚ
  FirstServePercentage : ℚ
  DoubleFaultPercentage : ℚ
  ReturnPointsWonPercentage : ℚ
  BreakPointsConvertedPercentage : ℚ
  other : String → ℚ
deriving Inhabited

/-- Embedding of `generate_daily_stats(base_stats)` from `sim.py`.
The two `random.gauss(1.0, 0.1)` draws are the explicit parameters
`serveGauss` and `returnGauss`; the function clips them to `[0.7, 1.3]`
exactly as the source does. -/
def generate_daily_stats (base_stats : Stats) (serveGauss returnGauss : ℚ) : Stats :=
  let serve_form := clip serveGauss (7/10) (13/10)
  let return_form := clip returnGauss (7/10) (13/10)
  { base_stats with
    AcePercentage := clip (base_stats.AcePercentage * serve_form) 0 1
    FirstServeWonPercentage := clip (base_stats.FirstServeWonPercentage * serve_form) 0 1
    SecondServeWonPercentage := clip (base_stats.SecondServeWonPercentage * serve_form) 0 1
    FirstServePercentage := base_stats.FirstServePercentage
    DoubleFaultPercentage := clip (base_stats.DoubleFaultPercentage / serve_form) 0 1
    ReturnPointsWonPercentage := clip (base_stats.ReturnPointsWonPercentage * return_form) 0 1
    BreakPointsConvertedPercentage := clip (base_stats.BreakPointsConvertedPercentage * return_form) 0 1 }

/-- Embedding of `apply_momentum_to_stats(daily_stats, momentum)` from
`sim.py`: `factor = 1.0 + 0.02 * momentum`; serve percentages scaled by
`factor`, double faults divided by it, each clipped to `[0, 1]`; all other
fields pass through. -/
def apply_momentum_to_stats (daily_stats : Stats) (momentum : ℚ) : Stats :=
  let factor := 1 + (2/100) * momentum
  { daily_stats with
    AcePercentage := clip (daily_stats.AcePercentage * factor) 0 1
    FirstServeWonPercentage := clip (daily_stats.FirstServeWonPercentage * factor) 0 1
    SecondServeWonPercentage := clip (daily_stats.SecondServeWonPercentage * factor) 0 1
    DoubleFaultPercentage := clip (daily_stats.DoubleFaultPercentage / factor) 0 1
    FirstServePercentage := daily_stats.FirstServePercentage
    ReturnPointsWonPercentage := daily_stats.ReturnPointsWonPercentage
    BreakPointsConvertedPercentage := daily_stats.BreakPointsConvertedPercentage }

/-- Embedding of `update_momentum(player, event)` from `sim.py`, as the new
value of `player['momentum']` (an integer in the source).  Events other than
`'win_break'` and `'lose_break'` leave the momentum unchanged. -/
def update_momentum (momentum : ℤ) (event : String) : ℤ :=
  if event = "win_break" then clip (momentum + 1) (-3) 3
  else if event = "lose_break" then clip (momentum - 1) (-3) 3
  else momentum

/-- The mutable player dictionary of `sim.py`, restricted to the fields the
simulation reads (`base_stats`, `daily_stats`, `momentum`). -/
structure Player where
  base_stats : Stats
  daily_stats : Stats
  momentum : ℤ
deriving Inhabited

/-- Embedding of `simulate_point(player)` from `sim.py`, with the up to
three `random.random()` draws as explicit parameters `r1`, `r2`, `r3`.
Returns `(point_won, is_ace, is_double_fault)`. -/
def simulate_point (player : Player) (r1 r2 r3 : ℚ) : Bool × Bool × Bool :=
  let stats := apply_momentum_to_stats player.daily_stats (player.momentum : ℚ)
  if r1 < stats.DoubleFaultPercentage then (false, false, true)
  else if r2 < stats.AcePercentage then (true, true, false)
  else
    let p_win := stats.FirstServePercentage * stats.FirstServeWonPercentage +
      (1 - stats.FirstServePercentage) * stats.SecondServeWonPercentage
    (r3 < p_win, false, false)

/-- Number of uniform draws `simulate_point` consumes on a run whose first
two draws are `r1`, `r2`: one for the double-fault branch, two for the ace
branch, three otherwise. -/
def point_draws (player : Player) (r1 r2 : ℚ) : ℕ :=
  let stats := apply_momentum_to_stats player.daily_stats (player.momentum : ℚ)
  if r1 < stats.DoubleFaultPercentage then 1
  else if r2 < stats.AcePercentage then 2
  else 3

/-- Variant of `simulate_point` reading its draws from a stream `rnd`
starting at index `i`; returns the outcome together with the index of the first
unconsumed draw. -/
def simulate_point_idx (player : Player) (rnd : ℕ → ℚ) (i : ℕ) :
    (Bool × Bool × Bool) × ℕ :=
  (simulate_point player (rnd i) (rnd (i + 1)) (rnd (i + 2)),
   i + point_draws player (rnd i) (rnd (i + 1)))

/-- The dictionary returned by `simulate_game` / `simulate_tiebreak` in
`sim.py`: `winner` (`'server'` or `'receiver'`, modelled as a Bool that is
`true` for `'server'`), `server_aces`, `server_double_faults`. -/
structure GameResult where
  winner_is_server : Bool
  server_aces : ℕ
  server_double_faults : ℕ
deriving DecidableEq

/-- One iteration of the `simulate_game` loop body up to the win check
(source lines 141–149): plays a point with the server's stats and returns
the updated `(server_points, receiver_points, server_aces,
server_double_faults, index)`. -/
def game_point_step (server : Player) (rnd : ℕ → ℚ)
    (server_points receiver_points server_aces server_double_faults i : ℕ) :
    ℕ × ℕ × ℕ × ℕ × ℕ :=
  let res := simulate_point_idx server rnd i
  let point_won := res.1.1
  let is_ace := res.1.2.1
  let is_df := res.1.2.2
  (if point_won then server_points + 1 else server_points,
   if point_won then receiver_points else receiver_points + 1,
   if point_won && is_ace then server_aces + 1 else server_aces,
   if is_df then server_double_faults + 1 else server_double_faults,
   res.2)

/-- The `while True` loop of `simulate_game(server, receiver)` from
`sim.py`, with an explicit fuel.  Arguments after the fuel are the loop
variables `server_points`, `receiver_points`, `server_aces`,
`server_double_faults` and the draw-stream index.  On termination it
returns the `GameResult` of the source together with the final point
counts and next stream index (verification instrumentation projected away
by `simulate_game`). -/
def simulate_game_loop (server : Player) (rnd : ℕ → ℚ) :
    ℕ → ℕ → ℕ → ℕ → ℕ → ℕ → Option (GameResult × ℕ × ℕ × ℕ)
  | 0, _, _, _, _, _ => none
  | fuel + 1, server_points, receiver_points, server_aces, server_double_faults, i =>
    let u := game_point_step server rnd server_points receiver_points server_aces
      server_double_faults i
    if (u.1 ≥ 4 ∨ u.2.1 ≥ 4) ∧ 2 ≤ |(u.1 : ℤ) - (u.2.1 : ℤ)| then
      if u.1 > u.2.1 then some (⟨true, u.2.2.1, u.2.2.2.1⟩, u.1, u.2.1, u.2.2.2.2)
      else some (⟨false, u.2.2.1, u.2.2.2.1⟩, u.1, u.2.1, u.2.2.2.2)
    else
      simulate_game_loop server rnd fuel u.1 u.2.1 u.2.2.1 u.2.2.2.1 u.2.2.2.2

/-- Embedding of `simulate_game(server, receiver)` from `sim.py`.  The
`receiver` argument is unused by the source (only the server's stats drive
the point rolls) and is kept for signature fidelity.  Returns the result
dict together with the next stream index. -/
def simulate_game (server receiver : Player) (rnd : ℕ → ℚ) (fuel i : ℕ) :
    Option (GameResult × ℕ) :=
  let _ := receiver
  (simulate_game_loop server rnd fuel 0 0 0 0 i).map fun out => (out.1, out.2.2.2)

/-- The server-switch test of the tiebreak loop in `sim.py`, evaluated with
the just-incremented `point_count`:
`point_count == 1 or (point_count > 1 and (point_count - 1) % 4 == 0)`. -/
def tb_switch_after (point_count : ℕ) : Bool :=
  point_count == 1 || (decide (point_count > 1) && (point_count - 1) % 4 == 0)

/-- Which side serves each tiebreak point under the source's rotation rule:
`tb_server_of_point n` is `true` when point number `n` (1-based) is served
by the nominal starting server.  Point 1 is served by the starting server;
after point `n` the serve switches exactly when `tb_switch_after n`. -/
def tb_server_of_point : ℕ → Bool
  | 0 => true
  | 1 => true
  | n + 2 =>
    if tb_switch_after (n + 1) then !(tb_server_of_point (n + 1))
    else tb_server_of_point (n + 1)

/-- Rotation rule written from the spec's words (for comparison with
`tb_server_of_point`): "server serves point 1, then service alternates
every 2 points thereafter", i.e. the serve switches after points
1, 3, 5, 7, … -/
def spec_tb_switch_after (point_count : ℕ) : Bool :=
  point_count % 2 == 1

/-- Serving side per point under the spec's rotation rule (`true` = nominal
starting server), built with the same recursion as `tb_server_of_point` but
switching after every odd-numbered point. -/
def spec_tb_server_of_point : ℕ → Bool
  | 0 => true
  | 1 => true
  | n + 2 =>
    if spec_tb_switch_after (n + 1) then !(spec_tb_server_of_point (n + 1))
    else spec_tb_server_of_point (n + 1)

/-- Termination record of the tiebreak loop: the result dict of the source
plus verification instrumentation — the aces and double faults struck on
points served by the receiver (computed by `simulate_point` in the source's
receiver branch but discarded there), the final point counts, and the next
stream index. -/
structure TiebreakOut where
  result : GameResult
  receiver_aces : ℕ
  receiver_double_faults : ℕ
  server_points : ℕ
  receiver_points : ℕ
  next_idx : ℕ
deriving DecidableEq

/-- One point of the tiebreak loop (source lines 173–191): serves with the
current server's stats and returns the updated `(server_points,
receiver_points, server_aces, server_double_faults, receiver_aces,
receiver_double_faults, index)`.  In the receiver branch the source
computes `(point_won, is_ace, is_df)` from the receiver's stats but uses
only `point_won`; the ghost receiver counters record the discarded
`is_ace`/`is_df` so that theorems can talk about them. -/
def tb_point_step (server receiver : Player) (rnd : ℕ → ℚ)
    (server_points receiver_points server_aces server_double_faults
      receiver_aces receiver_double_faults : ℕ) (current_server : Bool) (i : ℕ) :
    ℕ × ℕ × ℕ × ℕ × ℕ × ℕ × ℕ :=
  let res :=
    if current_server then simulate_point_idx server rnd i
    else simulate_point_idx receiver rnd i
  let point_won := res.1.1
  let is_ace := res.1.2.1
  let is_df := res.1.2.2
  (if current_server then
      (if point_won then server_points + 1 else server_points)
    else (if point_won then server_points else server_points + 1),
   if current_server then
      (if point_won then receiver_points else receiver_points + 1)
    else (if point_won then receiver_points + 1 else receiver_points),
   if current_server && point_won && is_ace then server_aces + 1 else server_aces,
   if current_server && is_df then server_double_faults + 1 else server_double_faults,
   if !current_server && point_won && is_ace then receiver_aces + 1 else receiver_aces,
   if !current_server && is_df then receiver_double_faults + 1
     else receiver_double_faults,
   res.2)

/-- The `while True` loop of `simulate_tiebreak(server, receiver)` from
`sim.py`, with fuel, one `tb_point_step` per iteration followed by the
`point_count` increment, the server-switch update and the win check. -/
def simulate_tiebreak_loop (server receiver : Player) (rnd : ℕ → ℚ) :
    ℕ → ℕ → ℕ → ℕ → ℕ → ℕ → ℕ → Bool → ℕ → ℕ → Option TiebreakOut
  | 0, _, _, _, _, _, _, _, _, _ => none
  | fuel + 1, server_points, receiver_points, server_aces, server_double_faults,
      receiver_aces, receiver_double_faults, current_server, point_count, i =>
    let u := tb_point_step server receiver rnd server_points receiver_points
      server_aces server_double_faults receiver_aces receiver_double_faults
      current_server i
    let pc := point_count + 1
    let cur := if tb_switch_after pc then !current_server else current_server
    if (u.1 ≥ 7 ∨ u.2.1 ≥ 7) ∧ 2 ≤ |(u.1 : ℤ) - (u.2.1 : ℤ)| then
      if u.1 > u.2.1 then
        some ⟨⟨true, u.2.2.1, u.2.2.2.1⟩, u.2.2.2.2.1, u.2.2.2.2.2.1, u.1, u.2.1,
          u.2.2.2.2.2.2⟩
      else
        some ⟨⟨false, u.2.2.1, u.2.2.2.1⟩, u.2.2.2.2.1, u.2.2.2.2.2.1, u.1, u.2.1,
          u.2.2.2.2.2.2⟩
    else
      simulate_tiebreak_loop server receiver rnd fuel u.1 u.2.1 u.2.2.1 u.2.2.2.1
        u.2.2.2.2.1 u.2.2.2.2.2.1 cur pc u.2.2.2.2.2.2

/-- Embedding of `simulate_tiebreak(server, receiver)` from `sim.py`:
starts with the nominal server serving and `point_count = 0`, and projects
the loop's termination record to the result dict of the source plus the
next stream index. -/
def simulate_tiebreak (server receiver : Player) (rnd : ℕ → ℚ) (fuel i : ℕ) :
    Option (GameResult × ℕ) :=
  (simulate_tiebreak_loop server receiver rnd fuel 0 0 0 0 0 0 true 0 i).map
    fun out => (out.result, out.next_idx)

/-- The dictionary returned by `simulate_set` in `sim.py` (`winner` is the
player1 object exactly when `games_p1 > games_p2` at return, modelled as
`winner_is_p1`), together with verification instrumentation: the players'
states after the set's momentum updates, the ordered list of break events
(`true` = player1 won the break, i.e. player1 received `'win_break'`), the
number of tiebreaks played, and the next stream index. -/
structure SetOut where
  winner_is_p1 : Bool
  games_won_by_p1 : ℕ
  games_won_by_p2 : ℕ
  aces_by_p1 : ℕ
  aces_by_p2 : ℕ
  df_by_p1 : ℕ
  df_by_p2 : ℕ
  p1_after : Player
  p2_after : Player
  breaks : List Bool
  tb_count : ℕ
  next_idx : ℕ
deriving Inhabited

/-- Apply the source's momentum updates for one break event to the pair of
players: the receiver of the broken game gets `'win_break'` and the server
`'lose_break'`, exactly the two `update_momentum` calls of `sim.py`.
`p1_won` is `true` when player1 is the side winning the break. -/
def apply_break (p1 p2 : Player) (p1_won : Bool) : Player × Player :=
  if p1_won then
    ({ p1 with momentum := update_momentum p1.momentum "win_break" },
     { p2 with momentum := update_momentum p2.momentum "lose_break" })
  else
    ({ p1 with momentum := update_momentum p1.momentum "lose_break" },
     { p2 with momentum := update_momentum p2.momentum "win_break" })

/-- The `games_p1 == 6 and games_p2 == 6` tiebreak block of `simulate_set`
in `sim.py` (source lines 269–299), lifted to its own definition: plays the
tiebreak with `next_server`'s player as the nominal tiebreak server, adds
the tiebreak's server aces/double faults to that player's set tallies only,
applies the momentum updates when the tiebreak server loses, and returns
the set dict. -/
def set_tiebreak_step (p1 p2 : Player) (next_server : ℕ) (rnd : ℕ → ℚ)
    (games_p1 games_p2 aces_p1 aces_p2 df_p1 df_p2 : ℕ) (pf i : ℕ) :
    Option SetOut :=
  if next_server = 1 then
    match simulate_tiebreak p1 p2 rnd pf i with
    | none => none
    | some (tb, i2) =>
      let aces_p1 := aces_p1 + tb.server_aces
      let df_p1 := df_p1 + tb.server_double_faults
      if tb.winner_is_server then
        some ⟨decide (games_p1 + 1 > games_p2), games_p1 + 1, games_p2,
          aces_p1, aces_p2, df_p1, df_p2, p1, p2, [], 1, i2⟩
      else
        let pq := apply_break p1 p2 false
        some ⟨decide (games_p1 > games_p2 + 1), games_p1, games_p2 + 1,
          aces_p1, aces_p2, df_p1, df_p2, pq.1, pq.2, [false], 1, i2⟩
  else
    match simulate_tiebreak p2 p1 rnd pf i with
    | none => none
    | some (tb, i2) =>
      let aces_p2 := aces_p2 + tb.server_aces
      let df_p2 := df_p2 + tb.server_double_faults
      if tb.winner_is_server then
        some ⟨decide (games_p1 > games_p2 + 1), games_p1, games_p2 + 1,
          aces_p1, aces_p2, df_p1, df_p2, p1, p2, [], 1, i2⟩
      else
        let pq := apply_break p1 p2 true
        some ⟨decide (games_p1 + 1 > games_p2), games_p1 + 1, games_p2,
          aces_p1, aces_p2, df_p1, df_p2, pq.1, pq.2, [true], 1, i2⟩

/-- One game of the `simulate_set` loop (source lines 231–253): plays a
game with `next_server`'s player serving, credits the game and the server's
aces / double faults, and applies the momentum updates on a break.  Returns
the updated players, tallies, the break events of this game (`[]` or one
entry), and the next stream index. -/
def set_game_step (p1 p2 : Player) (next_server : ℕ) (rnd : ℕ → ℚ) (pf i : ℕ)
    (games_p1 games_p2 aces_p1 aces_p2 df_p1 df_p2 : ℕ) :
    Option (Player × Player × ℕ × ℕ × ℕ × ℕ × ℕ × ℕ × List Bool × ℕ) :=
  if next_server = 1 then
    match simulate_game p1 p2 rnd pf i with
    | none => none
    | some (gi, i2) =>
      if gi.winner_is_server then
        some (p1, p2, games_p1 + 1, games_p2,
          aces_p1 + gi.server_aces, aces_p2, df_p1 + gi.server_double_faults,
          df_p2, ([] : List Bool), i2)
      else
        let pq := apply_break p1 p2 false
        some (pq.1, pq.2, games_p1, games_p2 + 1,
          aces_p1 + gi.server_aces, aces_p2, df_p1 + gi.server_double_faults,
          df_p2, [false], i2)
  else
    match simulate_game p2 p1 rnd pf i with
    | none => none
    | some (gi, i2) =>
      if gi.winner_is_server then
        some (p1, p2, games_p1, games_p2 + 1,
          aces_p1, aces_p2 + gi.server_aces, df_p1,
          df_p2 + gi.server_double_faults, ([] : List Bool), i2)
      else
        let pq := apply_break p1 p2 true
        some (pq.1, pq.2, games_p1 + 1, games_p2,
          aces_p1, aces_p2 + gi.server_aces, df_p1,
          df_p2 + gi.server_double_faults, [true], i2)

/-- The `while True` loop of `simulate_set` from `sim.py` (one
`set_game_step` per iteration, then the set-won check, then the 6–6
tiebreak check, then the server swap), with fuel counting games. -/
def simulate_set_loop (rnd : ℕ → ℚ) (pf : ℕ) :
    ℕ → Player → Player → ℕ → ℕ → ℕ → ℕ → ℕ → ℕ → ℕ → ℕ → Option SetOut
  | 0, _, _, _, _, _, _, _, _, _, _ => none
  | fuel + 1, p1, p2, games_p1, games_p2, aces_p1, aces_p2, df_p1, df_p2,
      next_server, i =>
    match set_game_step p1 p2 next_server rnd pf i games_p1 games_p2 aces_p1
        aces_p2 df_p1 df_p2 with
    | none => none
    | some u =>
      let q1 := u.1
      let q2 := u.2.1
      let g1 := u.2.2.1
      let g2 := u.2.2.2.1
      let a1 := u.2.2.2.2.1
      let a2 := u.2.2.2.2.2.1
      let d1 := u.2.2.2.2.2.2.1
      let d2 := u.2.2.2.2.2.2.2.1
      let ev := u.2.2.2.2.2.2.2.2.1
      let i2 := u.2.2.2.2.2.2.2.2.2
      if (g1 ≥ 6 ∨ g2 ≥ 6) ∧ 2 ≤ |(g1 : ℤ) - (g2 : ℤ)| then
        some ⟨decide (g1 > g2), g1, g2, a1, a2, d1, d2, q1, q2, ev, 0, i2⟩
      else if g1 = 6 ∧ g2 = 6 then
        match set_tiebreak_step q1 q2 next_server rnd g1 g2 a1 a2 d1 d2 pf i2 with
        | none => none
        | some out => some { out with breaks := ev ++ out.breaks }
      else
        match simulate_set_loop rnd pf fuel q1 q2 g1 g2 a1 a2 d1 d2
          (if next_server = 2 then 1 else 2) i2 with
        | none => none
        | some out => some { out with breaks := ev ++ out.breaks }

/-- Embedding of `simulate_set(player1, player2, starting_server)` from
`sim.py`: runs the game loop from a 0–0 score with the given starting
server. -/
def simulate_set (p1 p2 : Player) (starting_server : ℕ) (rnd : ℕ → ℚ)
    (pf sf i : ℕ) : Option SetOut :=
  simulate_set_loop rnd pf sf p1 p2 0 0 0 0 0 0 starting_server i

/-- The per-player match tally dict built by `simulate_match` in `sim.py`
(`breaks` and `clean_sets` are initialized to 0 and never updated by the
source). -/
structure MatchStats where
  sets_won : ℕ
  games_won : ℕ
  aces : ℕ
  double_faults : ℕ
  breaks : ℕ
  clean_sets : ℕ
  match_won : Bool
  sets_lost : ℕ
  games_lost : ℕ
deriving DecidableEq

/-- The per-player running tallies of `simulate_match`'s set loop other
than `sets_won`: games, aces and double faults for each player. -/
structure MatchAcc where
  games1 : ℕ
  games2 : ℕ
  aces1 : ℕ
  aces2 : ℕ
  dfs1 : ℕ
  dfs2 : ℕ
deriving DecidableEq

/-- The `while ... and ...` set loop of `simulate_match` from `sim.py`:
repeats `simulate_set` while both players are below `sets_to_win`,
accumulating tallies, alternating the starting server, and threading the
players' momentum.  Terminates by well-founded recursion: every iteration
increments one of the set counts. -/
def simulate_match_loop (rnd : ℕ → ℚ) (pf sf sets_to_win : ℕ) :
    Player → Player → ℕ → ℕ → MatchAcc → ℕ → ℕ → Option (ℕ × ℕ × MatchAcc)
  | p1, p2, s1, s2, acc, next_set_server, i =>
    if _h : s1 < sets_to_win ∧ s2 < sets_to_win then
      match simulate_set p1 p2 next_set_server rnd pf sf i with
      | none => none
      | some out =>
        let acc' : MatchAcc :=
          ⟨acc.games1 + out.games_won_by_p1, acc.games2 + out.games_won_by_p2,
           acc.aces1 + out.aces_by_p1, acc.aces2 + out.aces_by_p2,
           acc.dfs1 + out.df_by_p1, acc.dfs2 + out.df_by_p2⟩
        let ns := if next_set_server = 2 then 1 else 2
        if out.winner_is_p1 then
          simulate_match_loop rnd pf sf sets_to_win out.p1_after out.p2_after
            (s1 + 1) s2 acc' ns out.next_idx
        else
          simulate_match_loop rnd pf sf sets_to_win out.p1_after out.p2_after
            s1 (s2 + 1) acc' ns out.next_idx
    else
      some (s1, s2, acc)
termination_by _ _ s1 s2 _ _ _ => (sets_to_win - s1) + (sets_to_win - s2)
decreasing_by all_goals omega

/-- Embedding of `simulate_match(player1, player2, best_of)` from `sim.py`:
resets both players' momentum to 0, regenerates daily stats from the base
stats with the four `random.gauss` draws `sg1 rg1 sg2 rg2`, runs the set
loop with `sets_to_win = best_of // 2 + 1` starting with player1 serving,
and finalizes the two tally dicts (match-won flags, sets/games lost). -/
def simulate_match (player1 player2 : Player) (best_of : ℕ)
    (sg1 rg1 sg2 rg2 : ℚ) (rnd : ℕ → ℚ) (pf sf : ℕ) :
    Option (MatchStats × MatchStats) :=
  let p1 := { player1 with
    momentum := 0
    daily_stats := generate_daily_stats player1.base_stats sg1 rg1 }
  let p2 := { player2 with
    momentum := 0
    daily_stats := generate_daily_stats player2.base_stats sg2 rg2 }
  let sets_to_win := best_of / 2 + 1
  match simulate_match_loop rnd pf sf sets_to_win p1 p2 0 0 ⟨0, 0, 0, 0, 0, 0⟩ 1 0 with
  | none => none
  | some (s1, s2, acc) =>
    let p1_won := decide (s1 > s2)
    some (⟨s1, acc.games1, acc.aces1, acc.dfs1, 0, 0, p1_won, s2, acc.games2⟩,
          ⟨s2, acc.games2, acc.aces2, acc.dfs2, 0, 0, !p1_won, s1, acc.games1⟩)

/-- The statistics dict of the `tennis_sim` package (percentages on the
0–100 scale), restricted to the keys read by `expected.py` and `rally.py`.
`return_RiPW` and `ace_rate_against` are modelled as always present (the
sources read them via plain indexing or `.get` with a default). -/
structure EStats where
  first_serve_in_pct : ℚ
  ace_rate_1st : ℚ
  ace_rate_2nd : ℚ
  ace_rate_against : ℚ
  double_fault_pct : ℚ
  serve_and_volley_freq : ℚ
  serve_and_volley_win_pct : ℚ
  rally_1_3_win : ℚ
  rally_4_6_win : ℚ
  rally_7_9_win : ℚ
  rally_10plus_win : ℚ
  return_RiPW : ℚ

/-- The `TennisPlayer` of `player.py`, restricted to the fields the
formulas read (Elo rating and the stats dict). -/
structure TennisPlayer where
  elo : ℚ
  stats : EStats

/-- The Elo factor `1 + 0.05 * ((server.elo - receiver.elo) / 1500)`,
defined identically in `expected.py` (inline) and `rally.py`
(`ELO_ADJUSTMENT_FACTOR = 0.05`, `LEAGUE_AVG_ELO = 1500`). -/
def elo_factor (server receiver : TennisPlayer) : ℚ :=
  1 + (5/100) * ((server.elo - receiver.elo) / 1500)

/-- The bracket-weighted rally-win rate of `compute_expected_outcomes`
(`expected.py` lines 30–36): the fixed bracket probabilities
`{'1-3': 0.30, '4-6': 0.40, '7-9': 0.20, '10+': 0.10}` applied to the
server's per-bracket rally-win rates. -/
def weighted_rally (stats : EStats) : ℚ :=
  (30/100) * stats.rally_1_3_win + (40/100) * stats.rally_4_6_win +
    (20/100) * stats.rally_7_9_win + (10/100) * stats.rally_10plus_win

/-- The local `effective_rally_win` of `compute_expected_outcomes`
(`expected.py` line 37), lifted to a definition:
`((weighted_rally + (100 - stats['return_RiPW'])) / 2.0) * elo_factor / 100`
where `stats = server.stats` — note the source reads `return_RiPW` from the
server's own stats dict. -/
def expected_effective_rally_win (server receiver : TennisPlayer) : ℚ :=
  ((weighted_rally server.stats + (100 - server.stats.return_RiPW)) / 2) *
    elo_factor server receiver / 100

/-- The output dict of `compute_expected_outcomes` in `expected.py`
(all values on the 0–100 percentage scale). -/
structure ExpectedOutcomes where
  aces : ℚ
  double_faults : ℚ
  snv_wins : ℚ
  snv_losses : ℚ
  points_won_on_serve : ℚ
  rally_wins : ℚ

/-- Embedding of `compute_expected_outcomes(server, receiver)` from
`expected.py`, with the locals of the source as `let` bindings (the two
rally locals are the lifted definitions above). -/
def compute_expected_outcomes (server receiver : TennisPlayer) : ExpectedOutcomes :=
  let stats := server.stats
  let elo := elo_factor server receiver
  let p_in := stats.first_serve_in_pct / 100
  let ace_first := max 0 (stats.ace_rate_1st * elo - stats.ace_rate_against) / 100
  let expected_aces_first := p_in * ace_first
  let ace_second := max 0 (stats.ace_rate_2nd * elo - stats.ace_rate_against) / 100
  let expected_aces_second := (1 - p_in) * (1 - stats.double_fault_pct / 100) * ace_second
  let expected_aces := expected_aces_first + expected_aces_second
  let expected_double_faults := (1 - p_in) * (stats.double_fault_pct / 100)
  let effective_snv_freq := stats.serve_and_volley_freq * elo / 100
  let effective_snv_win := stats.serve_and_volley_win_pct * elo / 100
  let expected_snv_wins := p_in * effective_snv_freq * effective_snv_win
  let expected_snv_losses := p_in * effective_snv_freq * (1 - effective_snv_win)
  let expected_points_on_serve := (expected_aces + expected_snv_wins) * 100
  let effective_rally_win := expected_effective_rally_win server receiver
  let prob_rally :=
    1 - (expected_aces + expected_snv_wins + expected_double_faults + expected_snv_losses)
  let expected_rally_win := prob_rally * effective_rally_win * 100
  ⟨expected_aces * 100, expected_double_faults * 100, expected_snv_wins * 100,
   expected_snv_losses * 100, expected_points_on_serve, expected_rally_win⟩

/-- The rally-win probability of `RallySimulator.simulate_rally`
(`rally.py` lines 42–44) for a given bracket base rate:
`receiver_defense = 100 - receiver.stats['return_RiPW']` and
`effective_rally_win = ((base_rally_win + receiver_defense) / 2) *
elo_factor / 100` — the receiver's return-defense metric. -/
def rally_effective_rally_win (server receiver : TennisPlayer)
    (base_rally_win : ℚ) : ℚ :=
  ((base_rally_win + (100 - receiver.stats.return_RiPW)) / 2) *
    elo_factor server receiver / 100

/-- The rally contribution as the spec states it (for comparison with
`expected_effective_rally_win`): the bracket weights applied to the
server's per-bracket rally-win rates together with the receiver's
return-defense metric, i.e. the formula of `rally.py` averaged over the
brackets. -/
def spec_effective_rally_win (server receiver : TennisPlayer) : ℚ :=
  ((weighted_rally server.stats + (100 - receiver.stats.return_RiPW)) / 2) *
    elo_factor server receiver / 100

/-- Fold of the per-break momentum updates over an ordered list of break
events (`true` = player1 won the break); used to state that the set
engine's final momenta are exactly the break-by-break updates. -/
def apply_breaks (p1 p2 : Player) (l : List Bool) : Player × Player :=
  l.foldl (fun q b => apply_break q.1 q.2 b) (p1, p2)

/-- A stats record whose named fields are all zero (remaining dict keys
zero as well); concrete input for witnesses. -/
def zeroStats : Stats :=
  ⟨0, 0, 0, 0, 0, 0, 0, fun _ => 0⟩

/-- Stats of a server who wins every service point without aces or double
faults: first serve always in and always won. -/
def dominantStats : Stats :=
  ⟨0, 1, 1, 1, 0, 0, 0, fun _ => 0⟩

/-- Stats of a server who double-faults every point. -/
def faultyStats : Stats :=
  ⟨0, 0, 0, 0, 1, 0, 0, fun _ => 0⟩

/-- Stats of a server who hits an ace on every point. -/
def aceStats : Stats :=
  ⟨1, 1, 1, 1, 0, 0, 0, fun _ => 0⟩

/-- Player who wins every service point (no aces, no double faults). -/
def pDominant : Player :=
  ⟨dominantStats, dominantStats, 0⟩

/-- Player who double-faults every service point. -/
def pFaulty : Player :=
  ⟨faultyStats, faultyStats, 0⟩

/-- Player who serves an ace on every point. -/
def pAce : Player :=
  ⟨aceStats, aceStats, 0⟩

/-- The constant draw stream used by concrete runs. -/
def rndHalf : ℕ → ℚ :=
  fun _ => 1/2

/-- Concrete `TennisPlayer` for the expected-outcome formulas: first serve
always in, no aces / faults / serve-and-volley, all rally brackets at 50,
`return_RiPW = 40`. -/
def eServer : TennisPlayer :=
  ⟨1500, ⟨100, 0, 0, 0, 0, 0, 0, 50, 50, 50, 50, 40⟩⟩

/-- Concrete opposing `TennisPlayer`, identical to `eServer` except
`return_RiPW = 60`. -/
def eReceiver : TennisPlayer :=
  ⟨1500, ⟨100, 0, 0, 0, 0, 0, 0, 50, 50, 50, 50, 60⟩⟩

/-- Opposing player whose `return_RiPW` agrees with `eServer`'s. -/
def eReceiverSame : TennisPlayer :=
  ⟨1600, ⟨100, 0, 0, 0, 0, 0, 0, 10, 20, 30, 70, 40⟩⟩

/-- The set produced by `pDominant` serving first against `pFaulty` on the
constant stream: player1 wins 6–0 with breaks in games 2, 4 and 6. -/
def sampleSetOut : SetOut :=
  ⟨true, 6, 0, 0, 0, 0, 12, ⟨dominantStats, dominantStats, 3⟩,
    ⟨faultyStats, faultyStats, -3⟩, [true, true, true], 0, 48⟩

/-- Lower bound of `clip`: the result is at least the lower clamp. -/
theorem le_clip {α : Type} [LinearOrder α] (v lo hi : α) : lo ≤ clip v lo hi :=
  le_max_left _ _

/-- Upper bound of `clip`: when the clamps are ordered, the result is at
most the upper clamp. -/
theorem clip_le {α : Type} [LinearOrder α] (v lo hi : α) (h : lo ≤ hi) :
    clip v lo hi ≤ hi :=
  max_le h (min_le_right _ _)

/-- Rewriting `clip` in the `min (max lo v) hi` clamp spelling. -/
theorem clip_eq_min_max {α : Type} [LinearOrder α] (v lo hi : α) (h : lo ≤ hi) :
    clip v lo hi = min (max lo v) hi := by
  unfold clip
  rw [max_min_distrib_left, max_eq_right h]

/-- One `update_momentum` call keeps the momentum in `[-3, 3]`. -/
theorem update_momentum_mem (m : ℤ) (e : String) (h : -3 ≤ m ∧ m ≤ 3) :
    -3 ≤ update_momentum m e ∧ update_momentum m e ≤ 3 := by
  unfold update_momentum
  split
  · exact ⟨le_clip _ _ _, clip_le _ _ _ (by norm_num)⟩
  · split
    · exact ⟨le_clip _ _ _, clip_le _ _ _ (by norm_num)⟩
    · exact h

/-- C3: for every player whose momentum starts in [-3, 3], any sequence of
`update_momentum` calls (with `'win_break'` adding 1 and `'lose_break'`
subtracting 1, each clamped to [-3, 3], and any other event leaving the
value unchanged) keeps the momentum in [-3, 3], regardless of how many
consecutive breaks occur. -/
theorem momentum_bounded_by_updates (m : ℤ) (events : List String)
    (h : -3 ≤ m ∧ m ≤ 3) :
    -3 ≤ events.foldl update_momentum m ∧ events.foldl update_momentum m ≤ 3 := by
  induction events generalizing m with
  | nil => simpa using h
  | cons e es ih =>
    simp only [List.foldl_cons]
    exact ih _ (update_momentum_mem m e h)

/-- Witness for C3: six events (four consecutive winning breaks, a losing
break, and an unrelated event) starting from momentum 0. -/
theorem momentum_bounded_by_updates_witness :
    (-3 ≤ (0 : ℤ) ∧ (0 : ℤ) ≤ 3) ∧
      (-3 ≤ ["win_break", "win_break", "win_break", "win_break", "lose_break",
          "tiebreak"].foldl update_momentum 0 ∧
        ["win_break", "win_break", "win_break", "win_break", "lose_break",
          "tiebreak"].foldl update_momentum 0 ≤ 3) :=
  ⟨by decide,
   momentum_bounded_by_updates 0
     ["win_break", "win_break", "win_break", "win_break", "lose_break", "tiebreak"]
     (by decide)⟩

/-- C4: for every daily-stats record and momentum in [-3, 3],
`apply_momentum_to_stats` uses `factor = 1 + 0.02 × momentum` (non-zero on
that range), scales the ace and serve-won percentages by the factor and the
double-fault percentage by its reciprocal, clamping each into [0, 1], and
leaves every other field unchanged. -/
theorem apply_momentum_spec (daily : Stats) (momentum : ℚ)
    (h : -3 ≤ momentum ∧ momentum ≤ 3) :
    1 + (2/100) * momentum ≠ 0 ∧
    (apply_momentum_to_stats daily momentum).AcePercentage =
      min (max 0 (daily.AcePercentage * (1 + (2/100) * momentum))) 1 ∧
    (apply_momentum_to_stats daily momentum).FirstServeWonPercentage =
      min (max 0 (daily.FirstServeWonPercentage * (1 + (2/100) * momentum))) 1 ∧
    (apply_momentum_to_stats daily momentum).SecondServeWonPercentage =
      min (max 0 (daily.SecondServeWonPercentage * (1 + (2/100) * momentum))) 1 ∧
    (apply_momentum_to_stats daily momentum).DoubleFaultPercentage =
      min (max 0 (daily.DoubleFaultPercentage * (1 / (1 + (2/100) * momentum)))) 1 ∧
    (apply_momentum_to_stats daily momentum).FirstServePercentage =
      daily.FirstServePercentage ∧
    (apply_momentum_to_stats daily momentum).ReturnPointsWonPercentage =
      daily.ReturnPointsWonPercentage ∧
    (apply_momentum_to_stats daily momentum).BreakPointsConvertedPercentage =
      daily.BreakPointsConvertedPercentage ∧
    (apply_momentum_to_stats daily momentum).other = daily.other ∧
    (0 ≤ (apply_momentum_to_stats daily momentum).AcePercentage ∧
      (apply_momentum_to_stats daily momentum).AcePercentage ≤ 1) ∧
    (0 ≤ (apply_momentum_to_stats daily momentum).DoubleFaultPercentage ∧
      (apply_momentum_to_stats daily momentum).DoubleFaultPercentage ≤ 1) := by
  have hf : (0 : ℚ) < 1 + (2/100) * momentum := by nlinarith [h.1, h.2]
  have h01 : (0 : ℚ) ≤ 1 := by norm_num
  refine ⟨ne_of_gt hf, ?_, ?_, ?_, ?_, rfl, rfl, rfl, rfl, ?_, ?_⟩
  · simp only [apply_momentum_to_stats]
    rw [clip_eq_min_max _ _ _ h01]
  · simp only [apply_momentum_to_stats]
    rw [clip_eq_min_max _ _ _ h01]
  · simp only [apply_momentum_to_stats]
    rw [clip_eq_min_max _ _ _ h01]
  · simp only [apply_momentum_to_stats]
    rw [clip_eq_min_max _ _ _ h01, mul_one_div]
  · exact ⟨le_clip _ _ _, clip_le _ _ _ h01⟩
  · exact ⟨le_clip _ _ _, clip_le _ _ _ h01⟩

/-- Witness for C4: the zero stats record with momentum 2. -/
theorem apply_momentum_spec_witness :
    (-3 ≤ (2 : ℚ) ∧ (2 : ℚ) ≤ 3) ∧
    (1 + (2/100) * (2 : ℚ) ≠ 0 ∧
      (apply_momentum_to_stats zeroStats 2).AcePercentage =
        min (max 0 (zeroStats.AcePercentage * (1 + (2/100) * 2))) 1 ∧
      (apply_momentum_to_stats zeroStats 2).FirstServeWonPercentage =
        min (max 0 (zeroStats.FirstServeWonPercentage * (1 + (2/100) * 2))) 1 ∧
      (apply_momentum_to_stats zeroStats 2).SecondServeWonPercentage =
        min (max 0 (zeroStats.SecondServeWonPercentage * (1 + (2/100) * 2))) 1 ∧
      (apply_momentum_to_stats zeroStats 2).DoubleFaultPercentage =
        min (max 0 (zeroStats.DoubleFaultPercentage * (1 / (1 + (2/100) * 2)))) 1 ∧
      (apply_momentum_to_stats zeroStats 2).FirstServePercentage =
        zeroStats.FirstServePercentage ∧
      (apply_momentum_to_stats zeroStats 2).ReturnPointsWonPercentage =
        zeroStats.ReturnPointsWonPercentage ∧
      (apply_momentum_to_stats zeroStats 2).BreakPointsConvertedPercentage =
        zeroStats.BreakPointsConvertedPercentage ∧
      (apply_momentum_to_stats zeroStats 2).other = zeroStats.other ∧
      (0 ≤ (apply_momentum_to_stats zeroStats 2).AcePercentage ∧
        (apply_momentum_to_stats zeroStats 2).AcePercentage ≤ 1) ∧
      (0 ≤ (apply_momentum_to_stats zeroStats 2).DoubleFaultPercentage ∧
        (apply_momentum_to_stats zeroStats 2).DoubleFaultPercentage ≤ 1)) :=
  ⟨by norm_num, apply_momentum_spec zeroStats 2 (by norm_num)⟩

/-- C5: `generate_daily_stats` clamps the two sampled form multipliers to
[0.7, 1.3], multiplies the ace and serve-won percentages by the serve form,
divides the double-fault percentage by it, multiplies the return-points-won
and break-points-converted percentages by the return form, carries the
first-serve percentage (and all remaining fields) through unchanged, and
clamps every scaled field to [0, 1]. -/
theorem generate_daily_stats_spec (base : Stats) (sg rg : ℚ) :
    (7/10 ≤ clip sg (7/10) (13/10) ∧ clip sg (7/10) (13/10) ≤ 13/10) ∧
    (7/10 ≤ clip rg (7/10) (13/10) ∧ clip rg (7/10) (13/10) ≤ 13/10) ∧
    (generate_daily_stats base sg rg).AcePercentage =
      min (max 0 (base.AcePercentage * clip sg (7/10) (13/10))) 1 ∧
    (generate_daily_stats base sg rg).FirstServeWonPercentage =
      min (max 0 (base.FirstServeWonPercentage * clip sg (7/10) (13/10))) 1 ∧
    (generate_daily_stats base sg rg).SecondServeWonPercentage =
      min (max 0 (base.SecondServeWonPercentage * clip sg (7/10) (13/10))) 1 ∧
    (generate_daily_stats base sg rg).DoubleFaultPercentage =
      min (max 0 (base.DoubleFaultPercentage / clip sg (7/10) (13/10))) 1 ∧
    (generate_daily_stats base sg rg).ReturnPointsWonPercentage =
      min (max 0 (base.ReturnPointsWonPercentage * clip rg (7/10) (13/10))) 1 ∧
    (generate_daily_stats base sg rg).BreakPointsConvertedPercentage =
      min (max 0 (base.BreakPointsConvertedPercentage * clip rg (7/10) (13/10))) 1 ∧
    (generate_daily_stats base sg rg).FirstServePercentage =
      base.FirstServePercentage ∧
    (generate_daily_stats base sg rg).other = base.other ∧
    (0 ≤ (generate_daily_stats base sg rg).AcePercentage ∧
      (generate_daily_stats base sg rg).AcePercentage ≤ 1) ∧
    (0 ≤ (generate_daily_stats base sg rg).FirstServeWonPercentage ∧
      (generate_daily_stats base sg rg).FirstServeWonPercentage ≤ 1) ∧
    (0 ≤ (generate_daily_stats base sg rg).SecondServeWonPercentage ∧
      (generate_daily_stats base sg rg).SecondServeWonPercentage ≤ 1) ∧
    (0 ≤ (generate_daily_stats base sg rg).DoubleFaultPercentage ∧
      (generate_daily_stats base sg rg).DoubleFaultPercentage ≤ 1) ∧
    (0 ≤ (generate_daily_stats base sg rg).ReturnPointsWonPercentage ∧
      (generate_daily_stats base sg rg).ReturnPointsWonPercentage ≤ 1) ∧
    (0 ≤ (generate_daily_stats base sg rg).BreakPointsConvertedPercentage ∧
      (generate_daily_stats base sg rg).BreakPointsConvertedPercentage ≤ 1) := by
  have h01 : (0 : ℚ) ≤ 1 := by norm_num
  have hb : (7/10 : ℚ) ≤ 13/10 := by norm_num
  refine ⟨⟨le_clip _ _ _, clip_le _ _ _ hb⟩, ⟨le_clip _ _ _, clip_le _ _ _ hb⟩,
    ?_, ?_, ?_, ?_, ?_, ?_, rfl, rfl,
    ⟨le_clip _ _ _, clip_le _ _ _ h01⟩, ⟨le_clip _ _ _, clip_le _ _ _ h01⟩,
    ⟨le_clip _ _ _, clip_le _ _ _ h01⟩, ⟨le_clip _ _ _, clip_le _ _ _ h01⟩,
    ⟨le_clip _ _ _, clip_le _ _ _ h01⟩, ⟨le_clip _ _ _, clip_le _ _ _ h01⟩⟩ <;>
  · simp only [generate_daily_stats]
    rw [clip_eq_min_max _ _ _ h01]

/-- C6: the single-roll point engine computes the momentum-adjusted
effective stats and then decides the point in three stages: double fault if
the first draw is below the effective double-fault probability; otherwise
ace if the second draw is below the effective ace probability; otherwise
the server wins exactly when the third draw is below
`pWin = firstServeInPct × firstServeWonPct + (1 − firstServeInPct) ×
secondServeWonPct`. -/
theorem simulate_point_spec (player : Player) (r1 r2 r3 : ℚ) :
    (r1 < (apply_momentum_to_stats player.daily_stats
        (player.momentum : ℚ)).DoubleFaultPercentage →
      simulate_point player r1 r2 r3 = (false, false, true)) ∧
    (¬ r1 < (apply_momentum_to_stats player.daily_stats
        (player.momentum : ℚ)).DoubleFaultPercentage →
      r2 < (apply_momentum_to_stats player.daily_stats
        (player.momentum : ℚ)).AcePercentage →
      simulate_point player r1 r2 r3 = (true, true, false)) ∧
    (¬ r1 < (apply_momentum_to_stats player.daily_stats
        (player.momentum : ℚ)).DoubleFaultPercentage →
      ¬ r2 < (apply_momentum_to_stats player.daily_stats
        (player.momentum : ℚ)).AcePercentage →
      simulate_point player r1 r2 r3 =
        (decide (r3 <
          (apply_momentum_to_stats player.daily_stats
            (player.momentum : ℚ)).FirstServePercentage *
          (apply_momentum_to_stats player.daily_stats
            (player.momentum : ℚ)).FirstServeWonPercentage +
          (1 - (apply_momentum_to_stats player.daily_stats
            (player.momentum : ℚ)).FirstServePercentage) *
          (apply_momentum_to_stats player.daily_stats
            (player.momentum : ℚ)).SecondServeWonPercentage), false, false)) := by
  refine ⟨fun h1 => ?_, fun h1 h2 => ?_, fun h1 h2 => ?_⟩
  · simp [simulate_point, h1]
  · simp [simulate_point, h1, h2]
  · simp [simulate_point, h1, h2]

/-- Witness for C6: `pDominant` (no double faults, no aces, always wins the
rally stage) with draws 1/2, 1/2, 0 takes the third branch and wins. -/
theorem simulate_point_spec_witness :
    simulate_point pDominant (1/2) (1/2) 0 = (true, false, false) := by
  have h := (simulate_point_spec pDominant (1/2) (1/2) 0).2.2
    (by norm_num [apply_momentum_to_stats, pDominant, dominantStats, clip])
    (by norm_num [apply_momentum_to_stats, pDominant, dominantStats, clip])
  simpa [apply_momentum_to_stats, pDominant, dominantStats, clip] using h

set_option maxHeartbeats 2000000 in
/-- C1 (refuted): under the source's rotation rule, the nominal starting
server serves point 1, but the serve then switches only after points
1, 5, 9, … — the switch test `tb_switch_after` holds exactly for point
counts ≡ 1 (mod 4) — so the receiver serves points 2–5 and the claimed
rotation (switches after points 1, 3, 5, 7, under which point 4 is served
by the starting server, as `spec_tb_server_of_point` records) fails at
point 4.  A concrete run of the tiebreak loop with both players winning
every point they serve ends 5–7 after 12 points, which is impossible under
the every-2-points rotation (the score after 12 points would be 6–6). -/
theorem tiebreak_rotation_diverges :
    tb_server_of_point 1 = true ∧
    tb_server_of_point 2 = false ∧ tb_server_of_point 3 = false ∧
    tb_server_of_point 4 = false ∧ tb_server_of_point 5 = false ∧
    tb_server_of_point 6 = true ∧ tb_server_of_point 9 = true ∧
    tb_server_of_point 10 = false ∧
    spec_tb_server_of_point 4 = true ∧ spec_tb_server_of_point 5 = true ∧
    spec_tb_server_of_point 6 = false ∧
    tb_switch_after 1 = true ∧ tb_switch_after 3 = false ∧
    tb_switch_after 5 = true ∧ tb_switch_after 7 = false ∧
    tb_switch_after 9 = true ∧
    spec_tb_switch_after 3 = true ∧ spec_tb_switch_after 7 = true ∧
    simulate_tiebreak pDominant pDominant rndHalf 13 0 = some (⟨false, 0, 0⟩, 36) := by
  refine ⟨rfl, rfl, rfl, rfl, rfl, rfl, rfl, rfl, rfl, rfl, rfl, rfl, rfl,
    rfl, rfl, rfl, rfl, rfl, ?_⟩
  norm_num [simulate_tiebreak, simulate_tiebreak_loop, tb_point_step,
    simulate_point_idx, simulate_point, point_draws, apply_momentum_to_stats,
    clip, pDominant, dominantStats, rndHalf, tb_switch_after, max_def, min_def]

/-- Counterexample for C2: with identical 1500-Elo players whose stats
differ only in `return_RiPW` (server 40, receiver 60) and no ace /
double-fault / serve-and-volley mass, the calculator's rally contribution
is 55 — it uses the server's own return defense `100 − 40 = 60` — while
the claimed formula built from the receiver's return-defense metric
(`100 − 60 = 40`) gives 45. -/
theorem expected_rally_receiver_metric_cex :
    (compute_expected_outcomes eServer eReceiver).rally_wins = 55 ∧
    expected_effective_rally_win eServer eReceiver = 55/100 ∧
    spec_effective_rally_win eServer eReceiver = 45/100 ∧
    (compute_expected_outcomes eServer eReceiver).rally_wins ≠
      (1 - ((compute_expected_outcomes eServer eReceiver).aces +
        (compute_expected_outcomes eServer eReceiver).snv_wins +
        (compute_expected_outcomes eServer eReceiver).double_faults +
        (compute_expected_outcomes eServer eReceiver).snv_losses) / 100) *
        spec_effective_rally_win eServer eReceiver * 100 := by
  norm_num [compute_expected_outcomes, expected_effective_rally_win,
    spec_effective_rally_win, weighted_rally, elo_factor, eServer, eReceiver]

/-- C2 (amended): the calculator's rally contribution applies the fixed
bracket-probability weights {0.30, 0.40, 0.20, 0.10} to the server's
per-bracket rally-win rates together with the server's **own**
`return_RiPW`; consequently it equals the bracket-weighted average of the
rally simulator's per-bracket win probability exactly when the receiver's
`return_RiPW` coincides with the server's, and the reported
`Rally Wins as Server` output is that effective win probability times the
non-immediate-outcome mass times 100. -/
theorem expected_rally_bracket_weights (server receiver : TennisPlayer)
    (h : receiver.stats.return_RiPW = server.stats.return_RiPW) :
    expected_effective_rally_win server receiver =
      (30/100) * rally_effective_rally_win server receiver server.stats.rally_1_3_win +
      (40/100) * rally_effective_rally_win server receiver server.stats.rally_4_6_win +
      (20/100) * rally_effective_rally_win server receiver server.stats.rally_7_9_win +
      (10/100) * rally_effective_rally_win server receiver server.stats.rally_10plus_win ∧
    (compute_expected_outcomes server receiver).rally_wins =
      (1 - ((compute_expected_outcomes server receiver).aces +
        (compute_expected_outcomes server receiver).snv_wins +
        (compute_expected_outcomes server receiver).double_faults +
        (compute_expected_outcomes server receiver).snv_losses) / 100) *
        expected_effective_rally_win server receiver * 100 := by
  constructor
  · simp only [expected_effective_rally_win, rally_effective_rally_win,
      weighted_rally, h]
    ring
  · simp only [compute_expected_outcomes]
    ring

/-- Witness for C2's amended theorem: `eServer` against `eReceiverSame`
(equal `return_RiPW` of 40, different Elo and bracket rates). -/
theorem expected_rally_bracket_weights_witness :
    eReceiverSame.stats.return_RiPW = eServer.stats.return_RiPW ∧
    (expected_effective_rally_win eServer eReceiverSame =
      (30/100) * rally_effective_rally_win eServer eReceiverSame eServer.stats.rally_1_3_win +
      (40/100) * rally_effective_rally_win eServer eReceiverSame eServer.stats.rally_4_6_win +
      (20/100) * rally_effective_rally_win eServer eReceiverSame eServer.stats.rally_7_9_win +
      (10/100) * rally_effective_rally_win eServer eReceiverSame eServer.stats.rally_10plus_win ∧
    (compute_expected_outcomes eServer eReceiverSame).rally_wins =
      (1 - ((compute_expected_outcomes eServer eReceiverSame).aces +
        (compute_expected_outcomes eServer eReceiverSame).snv_wins +
        (compute_expected_outcomes eServer eReceiverSame).double_faults +
        (compute_expected_outcomes eServer eReceiverSame).snv_losses) / 100) *
        expected_effective_rally_win eServer eReceiverSame * 100) :=
  ⟨rfl, expected_rally_bracket_weights eServer eReceiverSame rfl⟩

/-- Invariant of the game loop: whenever it returns, the final point counts
satisfy the win-by-two-at-four condition and the winner is the side with
more points. -/
theorem simulate_game_loop_inv (server : Player) (rnd : ℕ → ℚ) :
    ∀ (fuel sp rp sa sdf i : ℕ) (res : GameResult) (fsp frp j : ℕ),
      simulate_game_loop server rnd fuel sp rp sa sdf i = some (res, fsp, frp, j) →
      (4 ≤ fsp ∨ 4 ≤ frp) ∧ 2 ≤ |(fsp : ℤ) - (frp : ℤ)| ∧
        (res.winner_is_server = true ↔ frp < fsp) := by
  intro fuel
  induction fuel with
  | zero =>
    intro sp rp sa sdf i res fsp frp j h
    simp [simulate_game_loop] at h
  | succ n ih =>
    intro sp rp sa sdf i res fsp frp j h
    simp only [simulate_game_loop] at h
    split at h
    · rename_i hC
      split at h
      · rename_i hgt
        simp only [Option.some.injEq, Prod.mk.injEq] at h
        obtain ⟨hres, hsp, hrp, _⟩ := h
        subst hsp; subst hrp
        exact ⟨hC.1, hC.2, by rw [← hres]; simpa using hgt⟩
      · rename_i hgt
        simp only [Option.some.injEq, Prod.mk.injEq] at h
        obtain ⟨hres, hsp, hrp, _⟩ := h
        subst hsp; subst hrp
        refine ⟨hC.1, hC.2, ?_⟩
        rw [← hres]
        simpa using by omega
    · exact ih _ _ _ _ _ _ _ _ _ h

/-- C9: whenever the game loop of `simulate_game` returns (started from the
0–0 state, as `simulate_game` starts it), the final point counts have one
side at ≥ 4 points with a lead of ≥ 2, the returned winner is the side with
more points, and `simulate_game` returns exactly that result. -/
theorem simulate_game_spec (server receiver : Player) (rnd : ℕ → ℚ)
    (fuel i : ℕ) (res : GameResult) (fsp frp j : ℕ)
    (h : simulate_game_loop server rnd fuel 0 0 0 0 i = some (res, fsp, frp, j)) :
    simulate_game server receiver rnd fuel i = some (res, j) ∧
    (4 ≤ fsp ∨ 4 ≤ frp) ∧ 2 ≤ |(fsp : ℤ) - (frp : ℤ)| ∧
    (res.winner_is_server = true ↔ frp < fsp) := by
  refine ⟨?_, simulate_game_loop_inv server rnd fuel 0 0 0 0 i res fsp frp j h⟩
  simp [simulate_game, h]

/-- Witness for C9: `pDominant` wins four straight points, ending the game
4–0 after 12 draws. -/
theorem simulate_game_spec_witness :
    simulate_game_loop pDominant rndHalf 4 0 0 0 0 0 =
      some (⟨true, 0, 0⟩, 4, 0, 12) ∧
    (simulate_game pDominant pFaulty rndHalf 4 0 = some (⟨true, 0, 0⟩, 12) ∧
      (4 ≤ 4 ∨ 4 ≤ 0) ∧ 2 ≤ |(4 : ℤ) - (0 : ℤ)| ∧
      ((⟨true, 0, 0⟩ : GameResult).winner_is_server = true ↔ 0 < 4)) := by
  have hl : simulate_game_loop pDominant rndHalf 4 0 0 0 0 0 =
      some (⟨true, 0, 0⟩, 4, 0, 12) := by
    norm_num [simulate_game_loop, game_point_step, simulate_point_idx,
      simulate_point, point_draws, apply_momentum_to_stats, clip, pDominant,
      dominantStats, rndHalf, max_def, min_def]
  exact ⟨hl, simulate_game_spec pDominant pFaulty rndHalf 4 0 _ 4 0 12 hl⟩

/-- Evaluating `update_momentum` on a `'win_break'` event: the clamped
increment. -/
theorem update_momentum_win (m : ℤ) :
    update_momentum m "win_break" = clip (m + 1) (-3) 3 := by
  unfold update_momentum
  rw [if_pos rfl]

/-- Evaluating `update_momentum` on a `'lose_break'` event: the clamped
decrement. -/
theorem update_momentum_lose (m : ℤ) :
    update_momentum m "lose_break" = clip (m - 1) (-3) 3 := by
  unfold update_momentum
  rw [if_neg (by decide), if_pos rfl]

/-- Folding break updates over an empty event list changes nothing. -/
theorem apply_breaks_nil (p1 p2 : Player) : apply_breaks p1 p2 [] = (p1, p2) :=
  rfl

/-- Folding break updates over a concatenation composes the two folds. -/
theorem apply_breaks_append (p1 p2 : Player) (l1 l2 : List Bool) :
    apply_breaks p1 p2 (l1 ++ l2) =
      apply_breaks (apply_breaks p1 p2 l1).1 (apply_breaks p1 p2 l1).2 l2 := by
  simp [apply_breaks, List.foldl_append]

/-- One game step of the set loop: the updated players are exactly the
break-event fold of the input players over the step's recorded events, and
exactly one game is credited. -/
theorem set_game_step_inv (p1 p2 : Player) (ns : ℕ) (rnd : ℕ → ℚ) (pf i : ℕ)
    (g1 g2 a1 a2 d1 d2 : ℕ)
    (u : Player × Player × ℕ × ℕ × ℕ × ℕ × ℕ × ℕ × List Bool × ℕ)
    (h : set_game_step p1 p2 ns rnd pf i g1 g2 a1 a2 d1 d2 = some u) :
    (u.1, u.2.1) = apply_breaks p1 p2 u.2.2.2.2.2.2.2.2.1 ∧
    ((u.2.2.1 = g1 + 1 ∧ u.2.2.2.1 = g2) ∨
      (u.2.2.1 = g1 ∧ u.2.2.2.1 = g2 + 1)) := by
  unfold set_game_step at h
  split at h
  · split at h
    · simp at h
    · split at h
      · simp only [Option.some.injEq] at h
        subst h
        exact ⟨by simp [apply_breaks], Or.inl ⟨rfl, rfl⟩⟩
      · simp only [Option.some.injEq] at h
        subst h
        exact ⟨by simp [apply_breaks], Or.inr ⟨rfl, rfl⟩⟩
  · split at h
    · simp at h
    · split at h
      · simp only [Option.some.injEq] at h
        subst h
        exact ⟨by simp [apply_breaks], Or.inr ⟨rfl, rfl⟩⟩
      · simp only [Option.some.injEq] at h
        subst h
        exact ⟨by simp [apply_breaks], Or.inl ⟨rfl, rfl⟩⟩

/-- The 6–6 tiebreak step always returns a 7–6 scoreline with one tiebreak
counted, the winner is the side with more games, and the players' momenta
are the break-event fold of its recorded events. -/
theorem set_tiebreak_step_inv (p1 p2 : Player) (ns : ℕ) (rnd : ℕ → ℚ)
    (a1 a2 d1 d2 pf i : ℕ) (out : SetOut)
    (h : set_tiebreak_step p1 p2 ns rnd 6 6 a1 a2 d1 d2 pf i = some out) :
    (((out.games_won_by_p1 = 7 ∧ out.games_won_by_p2 = 6) ∨
        (out.games_won_by_p1 = 6 ∧ out.games_won_by_p2 = 7)) ∧
      out.tb_count = 1) ∧
    (out.winner_is_p1 = true ↔ out.games_won_by_p2 < out.games_won_by_p1) ∧
    (out.p1_after, out.p2_after) = apply_breaks p1 p2 out.breaks := by
  unfold set_tiebreak_step at h
  split at h
  · split at h
    · simp at h
    · split at h
      · simp only [Option.some.injEq] at h
        subst h
        refine ⟨⟨Or.inl ⟨rfl, rfl⟩, rfl⟩, by simp, by simp [apply_breaks]⟩
      · simp only [Option.some.injEq] at h
        subst h
        refine ⟨⟨Or.inr ⟨rfl, rfl⟩, rfl⟩, by simp, by simp [apply_breaks]⟩
  · split at h
    · simp at h
    · split at h
      · simp only [Option.some.injEq] at h
        subst h
        refine ⟨⟨Or.inr ⟨rfl, rfl⟩, rfl⟩, by simp, by simp [apply_breaks]⟩
      · simp only [Option.some.injEq] at h
        subst h
        refine ⟨⟨Or.inl ⟨rfl, rfl⟩, rfl⟩, by simp, by simp [apply_breaks]⟩

/-- Invariant of the set loop: whenever it returns, the scoreline is either
a ≥ 6-games win with a ≥ 2-game margin and no tiebreak, or a 7–6 scoreline
decided by exactly one tiebreak; the winner is the side with more games;
and the output players are the break-event fold of the input players over
the recorded break list. -/
theorem simulate_set_loop_inv (rnd : ℕ → ℚ) (pf : ℕ) :
    ∀ (sf : ℕ) (p1 p2 : Player) (g1 g2 a1 a2 d1 d2 ns i : ℕ) (out : SetOut),
      simulate_set_loop rnd pf sf p1 p2 g1 g2 a1 a2 d1 d2 ns i = some out →
      (((6 ≤ out.games_won_by_p1 ∨ 6 ≤ out.games_won_by_p2) ∧
          2 ≤ |(out.games_won_by_p1 : ℤ) - (out.games_won_by_p2 : ℤ)| ∧
          out.tb_count = 0) ∨
        (((out.games_won_by_p1 = 7 ∧ out.games_won_by_p2 = 6) ∨
            (out.games_won_by_p1 = 6 ∧ out.games_won_by_p2 = 7)) ∧
          out.tb_count = 1)) ∧
      (out.winner_is_p1 = true ↔ out.games_won_by_p2 < out.games_won_by_p1) ∧
      (out.p1_after, out.p2_after) = apply_breaks p1 p2 out.breaks := by
  intro sf
  induction sf with
  | zero =>
    intro p1 p2 g1 g2 a1 a2 d1 d2 ns i out h
    simp [simulate_set_loop] at h
  | succ n ih =>
    intro p1 p2 g1 g2 a1 a2 d1 d2 ns i out h
    simp only [simulate_set_loop] at h
    cases hstep : set_game_step p1 p2 ns rnd pf i g1 g2 a1 a2 d1 d2 with
    | none => rw [hstep] at h; simp at h
    | some u =>
      rw [hstep] at h
      simp only at h
      obtain ⟨hq, _⟩ := set_game_step_inv p1 p2 ns rnd pf i g1 g2 a1 a2 d1 d2 u hstep
      split at h
      · rename_i hterm
        simp only [Option.some.injEq] at h
        subst h
        exact ⟨Or.inl ⟨hterm.1, hterm.2, rfl⟩, by simp, hq⟩
      · rename_i hterm
        split at h
        · rename_i h66
          cases htb : set_tiebreak_step u.1 u.2.1 ns rnd u.2.2.1 u.2.2.2.1
              u.2.2.2.2.1 u.2.2.2.2.2.1 u.2.2.2.2.2.2.1 u.2.2.2.2.2.2.2.1 pf
              u.2.2.2.2.2.2.2.2.2 with
          | none => rw [htb] at h; simp at h
          | some out2 =>
            rw [htb] at h
            simp only [Option.some.injEq] at h
            subst h
            rw [h66.1, h66.2] at htb
            obtain ⟨hsc, hwin, hmom⟩ := set_tiebreak_step_inv u.1 u.2.1 ns rnd
              u.2.2.2.2.1 u.2.2.2.2.2.1 u.2.2.2.2.2.2.1 u.2.2.2.2.2.2.2.1 pf
              u.2.2.2.2.2.2.2.2.2 out2 htb
            refine ⟨Or.inr ⟨hsc.1, hsc.2⟩, hwin, ?_⟩
            show (out2.p1_after, out2.p2_after) =
              apply_breaks p1 p2 (u.2.2.2.2.2.2.2.2.1 ++ out2.breaks)
            rw [apply_breaks_append, ← hq]
            exact hmom
        · cases hrec : simulate_set_loop rnd pf n u.1 u.2.1 u.2.2.1 u.2.2.2.1
              u.2.2.2.2.1 u.2.2.2.2.2.1 u.2.2.2.2.2.2.1 u.2.2.2.2.2.2.2.1
              (if ns = 2 then 1 else 2) u.2.2.2.2.2.2.2.2.2 with
          | none => rw [hrec] at h; simp at h
          | some out2 =>
            rw [hrec] at h
            simp only [Option.some.injEq] at h
            subst h
            obtain ⟨hsc, hwin, hmom⟩ := ih u.1 u.2.1 u.2.2.1 u.2.2.2.1
              u.2.2.2.2.1 u.2.2.2.2.2.1 u.2.2.2.2.2.2.1 u.2.2.2.2.2.2.2.1
              (if ns = 2 then 1 else 2) u.2.2.2.2.2.2.2.2.2 out2 hrec
            refine ⟨by simpa using hsc, by simpa using hwin, ?_⟩
            show (out2.p1_after, out2.p2_after) =
              apply_breaks p1 p2 (u.2.2.2.2.2.2.2.2.1 ++ out2.breaks)
            rw [apply_breaks_append, ← hq]
            exact hmom

/-- C8: every set result returned by `simulate_set` either has one player
at ≥ 6 games with a lead of ≥ 2 games and no tiebreak, or arose from
exactly one tiebreak played at 6–6 and is recorded 7–6 (a one-game margin
with the tiebreak counted as the winning game); the winner is the player
with more games; and the final momenta are exactly the fold of the
per-break updates (receiver `'win_break'`, server `'lose_break'`, both via
`update_momentum`) over the ordered break events of the set, tiebreak
breaks included. -/
theorem simulate_set_spec (p1 p2 : Player) (starting_server : ℕ)
    (rnd : ℕ → ℚ) (pf sf i : ℕ) (out : SetOut)
    (h : simulate_set p1 p2 starting_server rnd pf sf i = some out) :
    (((6 ≤ out.games_won_by_p1 ∨ 6 ≤ out.games_won_by_p2) ∧
        2 ≤ |(out.games_won_by_p1 : ℤ) - (out.games_won_by_p2 : ℤ)| ∧
        out.tb_count = 0) ∨
      (((out.games_won_by_p1 = 7 ∧ out.games_won_by_p2 = 6) ∨
          (out.games_won_by_p1 = 6 ∧ out.games_won_by_p2 = 7)) ∧
        out.tb_count = 1)) ∧
    (out.winner_is_p1 = true ↔ out.games_won_by_p2 < out.games_won_by_p1) ∧
    (out.p1_after, out.p2_after) = apply_breaks p1 p2 out.breaks :=
  simulate_set_loop_inv rnd pf sf p1 p2 0 0 0 0 0 0 starting_server i out h

set_option maxHeartbeats 4000000 in
/-- Witness for C8: the 6–0 set of `pDominant` over `pFaulty` (breaks in
games 2, 4 and 6, no tiebreak, final momenta 3 and −3). -/
theorem simulate_set_spec_witness :
    simulate_set pDominant pFaulty 1 rndHalf 4 6 0 = some sampleSetOut ∧
    ((((6 ≤ sampleSetOut.games_won_by_p1 ∨ 6 ≤ sampleSetOut.games_won_by_p2) ∧
        2 ≤ |(sampleSetOut.games_won_by_p1 : ℤ) -
          (sampleSetOut.games_won_by_p2 : ℤ)| ∧
        sampleSetOut.tb_count = 0) ∨
      (((sampleSetOut.games_won_by_p1 = 7 ∧ sampleSetOut.games_won_by_p2 = 6) ∨
          (sampleSetOut.games_won_by_p1 = 6 ∧ sampleSetOut.games_won_by_p2 = 7)) ∧
        sampleSetOut.tb_count = 1)) ∧
      (sampleSetOut.winner_is_p1 = true ↔
        sampleSetOut.games_won_by_p2 < sampleSetOut.games_won_by_p1) ∧
      (sampleSetOut.p1_after, sampleSetOut.p2_after) =
        apply_breaks pDominant pFaulty sampleSetOut.breaks) := by
  have hs : simulate_set pDominant pFaulty 1 rndHalf 4 6 0 = some sampleSetOut := by
    norm_num [simulate_set, simulate_set_loop, set_game_step, set_tiebreak_step,
      simulate_game, simulate_game_loop, game_point_step, simulate_point_idx,
      simulate_point, point_draws, apply_momentum_to_stats, apply_break,
      update_momentum_win, update_momentum_lose, clip, pDominant, pFaulty,
      dominantStats, faultyStats, sampleSetOut, rndHalf, max_def, min_def]
  exact ⟨hs, simulate_set_spec pDominant pFaulty 1 rndHalf 4 6 0 sampleSetOut hs⟩

set_option maxHeartbeats 2000000 in
/-- C10: the tiebreak result records only the aces and double faults struck
on points served by the nominal starting server, and `simulate_set`'s 6–6
tiebreak block adds them to that player's set tallies only, leaving the
other player's ace/double-fault tallies untouched — so aces and double
faults served by the other player during the tiebreak appear nowhere in the
returned result.  Concretely, when both players ace every point, the loop's
ghost counters show 7 receiver-served aces while the returned result still
carries only the 5 server-served aces (final score 5–7, 24 draws). -/
theorem tiebreak_ace_accounting :
    (∀ (p1 p2 : Player) (rnd : ℕ → ℚ) (a1 a2 d1 d2 pf i : ℕ) (tb : GameResult)
        (i2 : ℕ) (out : SetOut),
        simulate_tiebreak p1 p2 rnd pf i = some (tb, i2) →
        set_tiebreak_step p1 p2 1 rnd 6 6 a1 a2 d1 d2 pf i = some out →
        out.aces_by_p1 = a1 + tb.server_aces ∧ out.aces_by_p2 = a2 ∧
        out.df_by_p1 = d1 + tb.server_double_faults ∧ out.df_by_p2 = d2) ∧
    (∀ (p1 p2 : Player) (rnd : ℕ → ℚ) (a1 a2 d1 d2 pf i : ℕ) (tb : GameResult)
        (i2 : ℕ) (out : SetOut),
        simulate_tiebreak p2 p1 rnd pf i = some (tb, i2) →
        set_tiebreak_step p1 p2 2 rnd 6 6 a1 a2 d1 d2 pf i = some out →
        out.aces_by_p2 = a2 + tb.server_aces ∧ out.aces_by_p1 = a1 ∧
        out.df_by_p2 = d2 + tb.server_double_faults ∧ out.df_by_p1 = d1) ∧
    simulate_tiebreak_loop pAce pAce rndHalf 13 0 0 0 0 0 0 true 0 0 =
      some ⟨⟨false, 5, 0⟩, 7, 0, 5, 7, 24⟩ := by
  refine ⟨?_, ?_, ?_⟩
  · intro p1 p2 rnd a1 a2 d1 d2 pf i tb i2 out htb hstep
    unfold set_tiebreak_step at hstep
    rw [if_pos rfl] at hstep
    simp only [htb] at hstep
    split at hstep <;>
    · simp only [Option.some.injEq] at hstep
      subst hstep
      exact ⟨rfl, rfl, rfl, rfl⟩
  · intro p1 p2 rnd a1 a2 d1 d2 pf i tb i2 out htb hstep
    unfold set_tiebreak_step at hstep
    rw [if_neg (by decide)] at hstep
    simp only [htb] at hstep
    split at hstep <;>
    · simp only [Option.some.injEq] at hstep
      subst hstep
      exact ⟨rfl, rfl, rfl, rfl⟩
  · norm_num [simulate_tiebreak_loop, tb_point_step, simulate_point_idx,
      simulate_point, point_draws, apply_momentum_to_stats, clip, pAce,
      aceStats, rndHalf, tb_switch_after, max_def, min_def]

set_option maxHeartbeats 4000000 in
set_option linter.unnecessarySimpa false in
/-- Witness for C10: the all-ace tiebreak (result `(receiver, 5 aces,
0 double faults)` after 24 draws) fed through the 6–6 tiebreak block with
player1 as tiebreak server: player1's tally gains exactly the 5
server-served aces and player2's tally stays 0 even though player2 served
7 aces. -/
theorem tiebreak_ace_accounting_witness :
    simulate_tiebreak pAce pAce rndHalf 13 0 = some (⟨false, 5, 0⟩, 24) ∧
    set_tiebreak_step pAce pAce 1 rndHalf 6 6 0 0 0 0 13 0 =
      some ⟨false, 6, 7, 5, 0, 0, 0, ⟨aceStats, aceStats, -1⟩,
        ⟨aceStats, aceStats, 1⟩, [false], 1, 24⟩ ∧
    ((⟨false, 6, 7, 5, 0, 0, 0, ⟨aceStats, aceStats, -1⟩,
        ⟨aceStats, aceStats, 1⟩, [false], 1, 24⟩ : SetOut).aces_by_p1 = 5 ∧
      (⟨false, 6, 7, 5, 0, 0, 0, ⟨aceStats, aceStats, -1⟩,
        ⟨aceStats, aceStats, 1⟩, [false], 1, 24⟩ : SetOut).aces_by_p2 = 0 ∧
      (⟨false, 6, 7, 5, 0, 0, 0, ⟨aceStats, aceStats, -1⟩,
        ⟨aceStats, aceStats, 1⟩, [false], 1, 24⟩ : SetOut).df_by_p1 = 0 ∧
      (⟨false, 6, 7, 5, 0, 0, 0, ⟨aceStats, aceStats, -1⟩,
        ⟨aceStats, aceStats, 1⟩, [false], 1, 24⟩ : SetOut).df_by_p2 = 0) := by
  have h1 : simulate_tiebreak pAce pAce rndHalf 13 0 = some (⟨false, 5, 0⟩, 24) := by
    norm_num [simulate_tiebreak, simulate_tiebreak_loop, tb_point_step,
      simulate_point_idx, simulate_point, point_draws, apply_momentum_to_stats,
      clip, pAce, aceStats, rndHalf, tb_switch_after, max_def, min_def]
  have h2 : set_tiebreak_step pAce pAce 1 rndHalf 6 6 0 0 0 0 13 0 =
      some ⟨false, 6, 7, 5, 0, 0, 0, ⟨aceStats, aceStats, -1⟩,
        ⟨aceStats, aceStats, 1⟩, [false], 1, 24⟩ := by
    rw [set_tiebreak_step, if_pos rfl, h1]
    norm_num [apply_break, update_momentum_win, update_momentum_lose, clip,
      pAce, max_def, min_def]
  have h3 := tiebreak_ace_accounting.1 pAce pAce rndHalf 0 0 0 0 13 0
    ⟨false, 5, 0⟩ 24 _ h1 h2
  refine ⟨h1, h2, ?_, ?_, ?_, ?_⟩ <;> simpa using h3

/-- Invariant of the best-of-3 match loop (`sets_to_win = 2`): started from
set counts that are ≤ 2 and not already 2–2, any returned final counts have
exactly one player at 2 set wins and the other at ≤ 1. -/
theorem simulate_match_loop_inv (rnd : ℕ → ℚ) (pf sf : ℕ) :
    ∀ (k : ℕ) (p1 p2 : Player) (s1 s2 : ℕ) (acc : MatchAcc) (ns i : ℕ)
      (s1f s2f : ℕ) (accf : MatchAcc),
      (2 - s1) + (2 - s2) ≤ k →
      s1 ≤ 2 → s2 ≤ 2 → ¬(s1 = 2 ∧ s2 = 2) →
      simulate_match_loop rnd pf sf 2 p1 p2 s1 s2 acc ns i = some (s1f, s2f, accf) →
      ((s1f = 2 ∧ s2f ≤ 1) ∨ (s2f = 2 ∧ s1f ≤ 1)) := by
  intro k
  induction k with
  | zero =>
    intro p1 p2 s1 s2 acc ns i s1f s2f accf hk h1 h2 hne h
    omega
  | succ n ih =>
    intro p1 p2 s1 s2 acc ns i s1f s2f accf hk h1 h2 hne h
    rw [simulate_match_loop] at h
    split at h
    · rename_i hlt
      cases hset : simulate_set p1 p2 ns rnd pf sf i with
      | none => rw [hset] at h; simp at h
      | some out =>
        rw [hset] at h
        simp only at h
        split at h
        · exact ih _ _ _ _ _ _ _ _ _ _ (by omega) (by omega) (by omega)
            (by omega) h
        · exact ih _ _ _ _ _ _ _ _ _ _ (by omega) (by omega) (by omega)
            (by omega) h
    · simp only [Option.some.injEq, Prod.mk.injEq] at h
      obtain ⟨e1, e2, _⟩ := h
      omega

/-- C7: every best-of-3 match returned by `simulate_match` has a total set
count of 2 or 3 (never more: exactly one player reaches
`⌊3/2⌋ + 1 = 2` set wins, the other stays at ≤ 1), the match-won flag is
set for exactly the player with more set wins (no draw is possible, the two
flags are complementary), the lost-set/lost-game tallies mirror the
opponent's, and the result is independent of the players' incoming momentum
and daily stats — both are reset/regenerated at match start. -/
theorem simulate_match_spec (player1 player2 : Player) (sg1 rg1 sg2 rg2 : ℚ)
    (rnd : ℕ → ℚ) (pf sf : ℕ) (st1 st2 : MatchStats)
    (h : simulate_match player1 player2 3 sg1 rg1 sg2 rg2 rnd pf sf =
      some (st1, st2)) :
    (st1.sets_won + st2.sets_won = 2 ∨ st1.sets_won + st2.sets_won = 3) ∧
    ((st1.sets_won = 2 ∧ st2.sets_won ≤ 1) ∨
      (st2.sets_won = 2 ∧ st1.sets_won ≤ 1)) ∧
    (st1.match_won = true ↔ st2.sets_won < st1.sets_won) ∧
    st2.match_won = !st1.match_won ∧
    st1.sets_lost = st2.sets_won ∧ st2.sets_lost = st1.sets_won ∧
    st1.games_lost = st2.games_won ∧ st2.games_lost = st1.games_won ∧
    (∀ (m1 m2 : ℤ) (d1 d2 : Stats),
        simulate_match
          { player1 with
            momentum := m1
            daily_stats := d1 }
          { player2 with
            momentum := m2
            daily_stats := d2 } 3 sg1 rg1 sg2 rg2
          rnd pf sf =
        simulate_match player1 player2 3 sg1 rg1 sg2 rg2 rnd pf sf) := by
  simp only [simulate_match] at h
  cases hloop : simulate_match_loop rnd pf sf (3 / 2 + 1)
      { player1 with
        momentum := 0
        daily_stats := generate_daily_stats player1.base_stats sg1 rg1 }
      { player2 with
        momentum := 0
        daily_stats := generate_daily_stats player2.base_stats sg2 rg2 }
      0 0 ⟨0, 0, 0, 0, 0, 0⟩ 1 0 with
  | none => rw [hloop] at h; simp at h
  | some r =>
    rw [hloop] at h
    obtain ⟨s1, s2, acc⟩ := r
    simp only [Option.some.injEq, Prod.mk.injEq] at h
    obtain ⟨e1, e2⟩ := h
    have hd : (s1 = 2 ∧ s2 ≤ 1) ∨ (s2 = 2 ∧ s1 ≤ 1) := by
      norm_num at hloop
      exact simulate_match_loop_inv rnd pf sf 4 _ _ 0 0 _ 1 0 s1 s2 acc
        (by norm_num) (by norm_num) (by norm_num) (by norm_num) hloop
    subst e1; subst e2
    dsimp only
    refine ⟨by omega, hd, ?_, rfl, rfl, rfl, rfl, rfl, ?_⟩
    · simp [decide_eq_true_iff]
    · intro m1 m2 d1 d2
      rfl

set_option maxHeartbeats 8000000 in
set_option maxRecDepth 8192 in
set_option linter.unnecessarySimpa false in
/-- Witness for C7: a concrete best-of-3 match between a player who wins
every service point and a player who double-faults every service point
(junk incoming daily stats and momenta 7 and −9, overwritten at match
start): two 6–0 sets, final tallies 2–0 in sets, 12–0 in games, 24 double
faults for player2, player1 flagged as winner. -/
theorem simulate_match_spec_witness :
    simulate_match ⟨dominantStats, zeroStats, 7⟩ ⟨faultyStats, zeroStats, -9⟩ 3
      1 1 1 1 rndHalf 4 6 =
      some (⟨2, 12, 0, 0, 0, 0, true, 0, 0⟩, ⟨0, 0, 0, 24, 0, 0, false, 2, 12⟩) ∧
    (((2 : ℕ) + 0 = 2 ∨ (2 : ℕ) + 0 = 3) ∧
      (((2 : ℕ) = 2 ∧ (0 : ℕ) ≤ 1) ∨ ((0 : ℕ) = 2 ∧ (2 : ℕ) ≤ 1)) ∧
      (true = true ↔ (0 : ℕ) < 2)) := by
  have hset1 : simulate_set ⟨dominantStats, dominantStats, 0⟩
      ⟨faultyStats, faultyStats, 0⟩ 1 rndHalf 4 6 0 =
      some ⟨true, 6, 0, 0, 0, 0, 12, ⟨dominantStats, dominantStats, 3⟩,
        ⟨faultyStats, faultyStats, -3⟩, [true, true, true], 0, 48⟩ := by
    norm_num [simulate_set, simulate_set_loop, set_game_step, set_tiebreak_step,
      simulate_game, simulate_game_loop, game_point_step, simulate_point_idx,
      simulate_point, point_draws, apply_momentum_to_stats, apply_break,
      update_momentum_win, update_momentum_lose, clip, dominantStats,
      faultyStats, rndHalf, max_def, min_def]
  have hset2 : simulate_set ⟨dominantStats, dominantStats, 3⟩
      ⟨faultyStats, faultyStats, -3⟩ 2 rndHalf 4 6 48 =
      some ⟨true, 6, 0, 0, 0, 0, 12, ⟨dominantStats, dominantStats, 3⟩,
        ⟨faultyStats, faultyStats, -3⟩, [true, true, true], 0, 96⟩ := by
    norm_num [simulate_set, simulate_set_loop, set_game_step, set_tiebreak_step,
      simulate_game, simulate_game_loop, game_point_step, simulate_point_idx,
      simulate_point, point_draws, apply_momentum_to_stats, apply_break,
      update_momentum_win, update_momentum_lose, clip, dominantStats,
      faultyStats, rndHalf, max_def, min_def]
  have hgen1 : generate_daily_stats dominantStats 1 1 = dominantStats := by
    norm_num [generate_daily_stats, clip, dominantStats, max_def, min_def]
  have hgen2 : generate_daily_stats faultyStats 1 1 = faultyStats := by
    norm_num [generate_daily_stats, clip, faultyStats, max_def, min_def]
  have hloop0 : simulate_match_loop rndHalf 4 6 2 ⟨dominantStats, dominantStats, 0⟩
      ⟨faultyStats, faultyStats, 0⟩ 0 0 ⟨0, 0, 0, 0, 0, 0⟩ 1 0 =
      some (2, 0, ⟨12, 0, 0, 0, 0, 24⟩) := by
    rw [simulate_match_loop, dif_pos (by norm_num : (0 : ℕ) < 2 ∧ (0 : ℕ) < 2),
      hset1]
    norm_num
    rw [simulate_match_loop, dif_pos (by norm_num : (1 : ℕ) < 2 ∧ (0 : ℕ) < 2),
      hset2]
    norm_num
    rw [simulate_match_loop, dif_neg (by norm_num : ¬((2 : ℕ) < 2 ∧ (0 : ℕ) < 2))]
  have hm : simulate_match ⟨dominantStats, zeroStats, 7⟩
      ⟨faultyStats, zeroStats, -9⟩ 3 1 1 1 1 rndHalf 4 6 =
      some (⟨2, 12, 0, 0, 0, 0, true, 0, 0⟩,
        ⟨0, 0, 0, 24, 0, 0, false, 2, 12⟩) := by
    simp only [simulate_match]
    rw [hgen1, hgen2]
    norm_num [hloop0]
  have h := simulate_match_spec ⟨dominantStats, zeroStats, 7⟩
    ⟨faultyStats, zeroStats, -9⟩ 1 1 1 1 rndHalf 4 6
    ⟨2, 12, 0, 0, 0, 0, true, 0, 0⟩ ⟨0, 0, 0, 24, 0, 0, false, 2, 12⟩ hm
  exact ⟨hm, by simpa using h.1, by simpa using h.2.1, by simpa using h.2.2.1⟩
